import Mathlib

/-!
Shallow embedding of the hyper-productivity sync system.

Two components are embedded:

* the object-store gateway, a Cloudflare Worker (`src/unnamed/part_000`,
  `fetch` handler with R2 bucket, bearer-token auth, conditional PUT and the
  public iCal proxy routes), and
* the `CloudSync` client provider (class `CloudSync` in
  `src/IMPLEMENTATION.md`, Part 2, File 2), which composes keys, builds
  requests and translates HTTP statuses into typed errors.

Modelling conventions:

* The R2 bucket is a total function `String → Option StoredObj`; R2's
  content-derived strong ETag and the upload timestamp are supplied by the
  environment (`GwEnv.etagOf`, `GwEnv.now`), since they are produced by the
  platform, not by this repository's code.
* `fetch`/network effects become explicit: the gateway handler is a pure
  function `GwEnv → Store → Request → Response × Store`; the client takes the
  network as a function argument `Net := ClientReq → Response`.
* JavaScript string truthiness (`if (x)`) is modelled as
  "`Option.some` of a non-empty string"; `headers.get` returning `null` is
  `Option.none`.
* `encodeURIComponent` / `decodeURIComponent` are modelled at the Unicode
  scalar level: the encoder percent-encodes the UTF-8 bytes of every
  character outside the unreserved set; the decoder converts the whole
  string to octets (percent-escapes to their byte, literal characters to
  their UTF-8 bytes) and then UTF-8-decodes the octet sequence.  On strings
  where every escape sequence is well-formed UTF-8 this agrees with the
  ECMAScript functions; the model is lenient where ECMAScript throws
  (overlong forms), which no claim depends on.
* Constant CORS decoration headers and HTTP statusText are elided from
  `Response`; status codes, bodies, `ETag`, `Last-Modified` and
  `Content-Type` are kept.
-/

/-! ### Percent / UTF-8 codec (`encodeURIComponent`, `decodeURIComponent`) -/

/-- Uppercase hexadecimal digit for `n < 16`, as produced by
`encodeURIComponent`'s percent escapes. -/
def hexDigitChar (n : Nat) : Char :=
  if n < 10 then Char.ofNat (48 + n) else Char.ofNat (55 + n)

/-- Value of a hexadecimal digit; `decodeURIComponent` accepts both cases. -/
def hexVal (c : Char) : Option Nat :=
  if 48 ≤ c.toNat ∧ c.toNat ≤ 57 then some (c.toNat - 48)
  else if 65 ≤ c.toNat ∧ c.toNat ≤ 70 then some (c.toNat - 55)
  else if 97 ≤ c.toNat ∧ c.toNat ≤ 102 then some (c.toNat - 87)
  else none

/-- The characters `encodeURIComponent` leaves unescaped:
`A-Z a-z 0-9 - _ . ! ~ * ' ( )` (given here by code point). -/
def isUnreservedByte (b : Nat) : Bool :=
  (65 ≤ b && b ≤ 90) || (97 ≤ b && b ≤ 122) || (48 ≤ b && b ≤ 57) ||
  b == 45 || b == 95 || b == 46 || b == 33 || b == 126 ||
  b == 42 || b == 39 || b == 40 || b == 41

/-- UTF-8 encoding of a Unicode scalar value. -/
def utf8Bytes (n : Nat) : List Nat :=
  if n < 128 then [n]
  else if n < 2048 then [192 + n / 64, 128 + n % 64]
  else if n < 65536 then [224 + n / 4096, 128 + n / 64 % 64, 128 + n % 64]
  else [240 + n / 262144, 128 + n / 4096 % 64, 128 + n / 64 % 64, 128 + n % 64]

/-- Percent escape of one octet: `%` followed by two uppercase hex digits. -/
def percentEncByteChars (b : Nat) : List Char :=
  ['%', hexDigitChar (b / 16), hexDigitChar (b % 16)]

/-- Encoding of a single character under `encodeURIComponent`. -/
def encChar (c : Char) : List Char :=
  if isUnreservedByte c.toNat then [c]
  else (utf8Bytes c.toNat).flatMap percentEncByteChars

/-- `encodeURIComponent`: escape every character outside the unreserved set
as the percent-encoded form of its UTF-8 bytes. -/
def encodeURIComponent (s : String) : String :=
  ⟨s.data.flatMap encChar⟩

/-- First phase of `decodeURIComponent`: turn the character sequence into
octets (`%XX` escapes to their byte value, literal characters to their UTF-8
bytes); `none` on a malformed escape. -/
def percentBytesAux : List Char → Option (List Nat)
  | [] => some []
  | c :: rest =>
    if c = '%' then
      match rest with
      | h1 :: h2 :: rest2 =>
        match hexVal h1, hexVal h2 with
        | some a, some b =>
          match percentBytesAux rest2 with
          | some t => some ((16 * a + b) :: t)
          | none => none
        | _, _ => none
      | _ => none
    else
      match percentBytesAux rest with
      | some t => some (utf8Bytes c.toNat ++ t)
      | none => none

/-- Is `b` a UTF-8 continuation byte (`10xxxxxx`)? -/
def isContByte (b : Nat) : Bool := 128 ≤ b && b < 192

/-- Decode one UTF-8 sequence: given the lead byte and the remaining octets,
return the scalar value and the octets after the sequence; `none` on a
structurally invalid sequence. -/
def utf8DecodeOne (b : Nat) (rest : List Nat) : Option (Nat × List Nat) :=
  if b < 128 then some (b, rest)
  else if b < 192 then none
  else if b < 224 then
    match rest with
    | b1 :: rest1 =>
      if isContByte b1 then some ((b - 192) * 64 + (b1 - 128), rest1) else none
    | [] => none
  else if b < 240 then
    match rest with
    | b1 :: b2 :: rest2 =>
      if isContByte b1 && isContByte b2 then
        some ((b - 224) * 4096 + (b1 - 128) * 64 + (b2 - 128), rest2)
      else none
    | _ => none
  else if b < 248 then
    match rest with
    | b1 :: b2 :: b3 :: rest3 =>
      if isContByte b1 && isContByte b2 && isContByte b3 then
        some ((b - 240) * 262144 + (b1 - 128) * 4096 +
              (b2 - 128) * 64 + (b3 - 128), rest3)
      else none
    | _ => none
  else none

/-- Fuelled UTF-8 decoding loop; the fuel only bounds the number of decoded
sequences and is set to the octet count by `utf8DecodeAll`, which always
suffices since every sequence consumes at least one octet. -/
def utf8DecodeAllF : Nat → List Nat → Option (List Nat)
  | _, [] => some []
  | 0, _ :: _ => none
  | fuel + 1, b :: rest =>
    match utf8DecodeOne b rest with
    | none => none
    | some nr =>
      match utf8DecodeAllF fuel nr.2 with
      | some t => some (nr.1 :: t)
      | none => none

/-- Second phase of `decodeURIComponent`: UTF-8-decode an octet sequence to
Unicode scalar values; `none` on a structurally invalid sequence. -/
def utf8DecodeAll (l : List Nat) : Option (List Nat) := utf8DecodeAllF l.length l

/-- `decodeURIComponent`: percent-unescape to octets, then UTF-8-decode. -/
def decodeURIComponent (s : String) : Option String :=
  match percentBytesAux s.data with
  | none => none
  | some bs =>
    match utf8DecodeAll bs with
    | none => none
    | some ns => some ⟨ns.map Char.ofNat⟩

/-! ### Object gateway (`src/unnamed/part_000`) -/

/-- An object stored in the R2 bucket: the body bytes together with the
store-assigned ETag and upload timestamp. -/
structure StoredObj where
  content : String
  etag : String
  uploaded : String
deriving Repr, DecidableEq

/-- The R2 bucket: at most one object per key. -/
def Store : Type := String → Option StoredObj

/-- Result of the outbound `fetch` performed by the iCal proxy. -/
structure UpstreamResp where
  status : Nat
  contentType : Option String
  etag : Option String
  lastModified : Option String
  body : String
deriving Repr, DecidableEq

/-- The worker's environment: `AUTH_TOKEN`, the optional iCal source URLs,
and the platform-supplied parts of the bucket semantics (content-derived
ETag assignment, current time) plus the outbound network for the proxy
(`none` models a thrown fetch error). -/
structure GwEnv where
  authToken : String
  etagOf : String → String
  now : String
  icalOutlookUrl : Option String
  icalCursusUrl : Option String
  icalPersonalUrl : Option String
  icalFetch : String → Option UpstreamResp

/-- An incoming HTTP request as the worker observes it: method, URL
pathname, and the headers it reads. -/
structure Request where
  method : String
  path : String
  authorization : Option String
  ifMatch : Option String
  body : String
deriving Repr, DecidableEq

/-- An HTTP response: status plus the body and headers the system reads. -/
structure Response where
  status : Nat
  rbody : Option String
  etag : Option String
  lastModified : Option String
  contentType : Option String
deriving Repr, DecidableEq

/-- Response constructor shorthand. -/
def mkResp (status : Nat) (rbody etag lastModified contentType : Option String) :
    Response :=
  { status := status, rbody := rbody, etag := etag,
    lastModified := lastModified, contentType := contentType }

/-- `isIcalRoutePath` from the worker. -/
def isIcalRoutePath (p : String) : Bool :=
  p == "/ical/outlook.ics" || p == "/ical/cursus.ics" || p == "/ical/personal.ics"

/-- `getIcalUrlForPath` from the worker. -/
def getIcalUrlForPath (p : String) (env : GwEnv) : Option String :=
  if p == "/ical/outlook.ics" then env.icalOutlookUrl
  else if p == "/ical/cursus.ics" then env.icalCursusUrl
  else if p == "/ical/personal.ics" then env.icalPersonalUrl
  else none

/-- `handleIcalProxyRequest` from the worker: GET/HEAD only, 500 when the
route's source URL is unset or empty, 502 on upstream failure, otherwise 200
relaying the upstream calendar (the constant `Cache-Control` header is
elided along with the other constant decoration headers). -/
def handleIcalProxyRequest (env : GwEnv) (req : Request) : Response :=
  if req.method != "GET" && req.method != "HEAD" then
    mkResp 405 (some "Method not allowed") none none none
  else
    match getIcalUrlForPath req.path env with
    | none => mkResp 500 (some ("Calendar route not configured: " ++ req.path)) none none none
    | some u =>
      if u = "" then
        mkResp 500 (some ("Calendar route not configured: " ++ req.path)) none none none
      else
        match env.icalFetch u with
        | none => mkResp 502 (some "Calendar proxy error") none none none
        | some up =>
          if !(200 ≤ up.status && up.status < 300) then
            mkResp 502 (some ("Calendar fetch failed (" ++ toString up.status ++ ")")) none none none
          else
            { status := 200,
              rbody := if req.method == "HEAD" then none else some up.body,
              etag := up.etag,
              lastModified := up.lastModified,
              contentType := some (match up.contentType with
                | some ct => if ct = "" then "text/calendar" else ct
                | none => "text/calendar") }

/-- `BUCKET.put`: overwrite the object under `k`. -/
def putStore (store : Store) (k : String) (o : StoredObj) : Store :=
  fun k2 => if k2 = k then some o else store k2

/-- `BUCKET.delete`: remove the object under `k` (idempotent, no existence
check). -/
def deleteStore (store : Store) (k : String) : Store :=
  fun k2 => if k2 = k then none else store k2

/-- `url.pathname.slice(1)`: drop the leading character. -/
def sliceFrom1 (s : String) : String := ⟨s.data.drop 1⟩

/-- The authenticated `switch (request.method)` block of the worker's
`fetch` handler: HEAD/GET/PUT/DELETE over the bucket under the already
extracted, non-empty `key`. Returns the response together with the
resulting bucket state. -/
def gwSwitch (env : GwEnv) (store : Store) (req : Request) (key : String) :
    Response × Store :=
  if req.method = "HEAD" then
    match store key with
    | none => (mkResp 404 none none none none, store)
    | some o => (mkResp 200 none (some o.etag) (some o.uploaded) none, store)
  else if req.method = "GET" then
    match store key with
    | none => (mkResp 404 none none none none, store)
    | some o =>
      (mkResp 200 (some o.content) (some o.etag) (some o.uploaded)
        (some "application/json"), store)
  else if req.method = "PUT" then
    let newObj : StoredObj :=
      { content := req.body, etag := env.etagOf req.body, uploaded := env.now }
    let doWrite : Response × Store :=
      (mkResp 200 none (some newObj.etag) none none, putStore store key newObj)
    match req.ifMatch with
    | some p =>
      if p ≠ "" then
        match store key with
        | some existing =>
          if existing.etag ≠ p then
            (mkResp 412 (some "Precondition Failed") none none none, store)
          else doWrite
        | none => doWrite
      else doWrite
    | none => doWrite
  else if req.method = "DELETE" then
    (mkResp 204 none none none none, deleteStore store key)
  else
    (mkResp 405 (some "Method not allowed") none none none, store)

/-- The worker's `fetch` handler (`src/unnamed/part_000`): CORS preflight,
public iCal proxy routes, bearer-token auth, key extraction from the decoded
path, then the HEAD/GET/PUT/DELETE switch over the bucket. Returns the
response together with the resulting bucket state. A `URIError` escaping
the handler from `decodeURIComponent` (which sits before the `try` block in
the source) is modelled as a 500 response with the store untouched. -/
def gwFetch (env : GwEnv) (store : Store) (req : Request) : Response × Store :=
  if req.method = "OPTIONS" then
    (mkResp 200 none none none none, store)
  else if isIcalRoutePath req.path then
    (handleIcalProxyRequest env req, store)
  else if req.authorization ≠ some ("Bearer " ++ env.authToken) then
    (mkResp 401 (some "Unauthorized") none none none, store)
  else
    match decodeURIComponent (sliceFrom1 req.path) with
    | none => (mkResp 500 (some "Internal error: URI malformed") none none none, store)
    | some key =>
      if key = "" then
        (mkResp 400 (some "Missing key") none none none, store)
      else gwSwitch env store req key

/-! ### CloudSync client (`src/IMPLEMENTATION.md`, Part 2, File 2) -/

/-- `CloudSyncPrivateCfg` (`cloud-sync.model.ts`). -/
structure CloudSyncPrivateCfg where
  baseUrl : String
  authToken : String
  syncFolderPath : Option String
deriving Repr, DecidableEq

/-- The typed errors the provider raises (`sync-errors` imports in
`cloud-sync.ts`); generic `Error` throws become `genericError` carrying the
formatted message without `statusText`, which the model elides. -/
inductive SPError where
  | missingCredentials (msg : String)
  | remoteFileNotFound (msg : String)
  | noRev
  | invalidData (path : String)
  | uploadRevToMatchMismatch (msg : String)
  | genericError (msg : String)
deriving Repr, DecidableEq

/-- `FileRevResponse`. -/
structure FileRevResponse where
  rev : String
deriving Repr, DecidableEq

/-- `FileDownloadResponse`. -/
structure FileDownloadResponse where
  rev : String
  dataStr : String
deriving Repr, DecidableEq

/-- One step of `.replace(/\x2f+/g, '/')`: copy characters, collapsing any
run of slashes into a single slash (`prevSlash` records whether the previous
kept character was part of a slash run). -/
def collapseAux : List Char → Bool → List Char
  | [], _ => []
  | c :: rest, prevSlash =>
    if c = '/' then
      if prevSlash then collapseAux rest true
      else '/' :: collapseAux rest true
    else c :: collapseAux rest false

/-- `.replace(/\x2f+/g, '/')` on a whole string. -/
def collapseSlashes (s : String) : String := ⟨collapseAux s.data false⟩

/-- `_buildFilePath`: start from `syncFolderPath` (falling back to the
literal `"super-productivity"` when unset or empty), append the optional
construction-time extra path, append the target, join with `/` and collapse
repeated slashes. -/
def buildFilePath (extraPath : Option String) (cfg : CloudSyncPrivateCfg)
    (targetPath : String) : String :=
  let parts0 : List String :=
    match cfg.syncFolderPath with
    | some s => if s ≠ "" then [s] else ["super-productivity"]
    | none => ["super-productivity"]
  let parts1 : List String :=
    match extraPath with
    | some e => if e ≠ "" then parts0 ++ [e] else parts0
    | none => parts0
  collapseSlashes (String.intercalate "/" (parts1 ++ [targetPath]))

/-- `.replace(/\x2f+$/, '')`: strip trailing slashes from the base URL. -/
def stripTrailingSlashes (s : String) : String :=
  ⟨(s.data.reverse.dropWhile (fun c => c = '/')).reverse⟩

/-- A request as the client hands it to `fetch`: URL string, method, header
record and optional body. -/
structure ClientReq where
  url : String
  method : String
  headers : List (String × String)
  body : Option String
deriving Repr, DecidableEq

/-- Header-record lookup (`headers['N']` read). -/
def headerGet (hs : List (String × String)) (name : String) : Option String :=
  match hs.find? (fun p => p.1 == name) with
  | some p => some p.2
  | none => none

/-- Header-record update (`headers['N'] = v`). -/
def headerSet (hs : List (String × String)) (name v : String) :
    List (String × String) :=
  if (hs.find? (fun p => p.1 == name)).isSome then
    hs.map (fun p => if p.1 == name then (p.1, v) else p)
  else hs ++ [(name, v)]

/-- The network as the client sees it. -/
def Net : Type := ClientReq → Response

/-- `_cfgOrError`: require a stored configuration with non-empty base URL
and non-empty auth token. -/
def cfgOrError : Option CloudSyncPrivateCfg → Except SPError CloudSyncPrivateCfg
  | none => .error (.missingCredentials "CloudSync configuration is missing.")
  | some cfg =>
    if cfg.baseUrl = "" then
      .error (.missingCredentials
        "CloudSync base URL is not configured. Please check your sync settings.")
    else if cfg.authToken = "" then
      .error (.missingCredentials
        "CloudSync auth token is not configured. Please check your sync settings.")
    else .ok cfg

/-- `isReady`: `!!(cfg && cfg.baseUrl && cfg.authToken)`. -/
def isReady (cfg? : Option CloudSyncPrivateCfg) : Bool :=
  match cfg? with
  | none => false
  | some cfg => cfg.baseUrl != "" && cfg.authToken != ""

/-- The URL built by `_buildRequest`: trailing-slash-stripped base URL, a
slash, and the percent-encoded file path as one segment. -/
def buildUrlOf (cfg : CloudSyncPrivateCfg) (extraPath : Option String)
    (target : String) : String :=
  stripTrailingSlashes cfg.baseUrl ++ "/" ++
    encodeURIComponent (buildFilePath extraPath cfg target)

/-- The header record built by `_buildRequest` (bearer auth only). -/
def baseHeadersOf (cfg : CloudSyncPrivateCfg) : List (String × String) :=
  [("Authorization", "Bearer " ++ cfg.authToken)]

/-- JavaScript `a || b` over a nullable string. -/
def orTruthy (a : Option String) (b : String) : String :=
  match a with
  | some s => if s = "" then b else s
  | none => b

/-- `etag || lastMod || ''` as computed by `getFileRev`/`downloadFile`. -/
def revFromHeaders (r : Response) : String :=
  orTruthy r.etag (orTruthy r.lastModified "")

/-- `res.ok`. -/
def respOk (r : Response) : Bool := 200 ≤ r.status && r.status < 300

/-- `getFileRev`: HEAD the target; 404 becomes not-found, other non-success
a generic error; the revision is the ETag, falling back to Last-Modified,
and `NoRevAPIError` when neither is usable. (`localRev` is accepted and
ignored, as in the source.) -/
def getFileRev (cfg? : Option CloudSyncPrivateCfg) (extraPath : Option String)
    (net : Net) (targetPath : String) (localRev : Option String) :
    Except SPError FileRevResponse :=
  match cfgOrError cfg? with
  | .error e => .error e
  | .ok cfg =>
    let res := net { url := buildUrlOf cfg extraPath targetPath, method := "HEAD",
                     headers := baseHeadersOf cfg, body := none }
    if res.status = 404 then
      .error (.remoteFileNotFound ("File not found: " ++ targetPath))
    else if !respOk res then
      .error (.genericError ("CloudSync HEAD failed: " ++ toString res.status))
    else
      let rev := revFromHeaders res
      if rev = "" then .error .noRev
      else .ok { rev := rev }

/-- `downloadFile`: GET the target; same failure taxonomy as `getFileRev`,
returning the body text together with the revision. (The source's
`dataStr == null` guard can never fire, since `res.text()` always yields a
string; an absent body reads as `""`.) -/
def downloadFile (cfg? : Option CloudSyncPrivateCfg) (extraPath : Option String)
    (net : Net) (targetPath : String) : Except SPError FileDownloadResponse :=
  match cfgOrError cfg? with
  | .error e => .error e
  | .ok cfg =>
    let res := net { url := buildUrlOf cfg extraPath targetPath, method := "GET",
                     headers := baseHeadersOf cfg, body := none }
    if res.status = 404 then
      .error (.remoteFileNotFound ("File not found: " ++ targetPath))
    else if !respOk res then
      .error (.genericError ("CloudSync GET failed: " ++ toString res.status))
    else
      let dataStr := match res.rbody with
        | some s => s
        | none => ""
      let rev := revFromHeaders res
      if rev = "" then .error .noRev
      else .ok { rev := rev, dataStr := dataStr }

/-- The PUT request `uploadFile` sends: `If-Match` only when a revision to
match is supplied (truthy) and force-overwrite was not requested, then
`Content-Type: application/json`. -/
def uploadReqOf (cfg : CloudSyncPrivateCfg) (extraPath : Option String)
    (target data : String) (revToMatch : Option String) (force : Bool) : ClientReq :=
  let hs0 := baseHeadersOf cfg
  let hs1 :=
    match revToMatch with
    | some r => if r ≠ "" ∧ force = false then headerSet hs0 "If-Match" r else hs0
    | none => hs0
  { url := buildUrlOf cfg extraPath target, method := "PUT",
    headers := headerSet hs1 "Content-Type" "application/json", body := some data }

/-- `uploadFile`: conditional PUT; 412 becomes the distinct revision-mismatch
error, other non-success a generic error; on success the new revision is the
response's ETag, with `NoRevAPIError` when it is missing (no Last-Modified
fallback here). -/
def uploadFile (cfg? : Option CloudSyncPrivateCfg) (extraPath : Option String)
    (net : Net) (target data : String) (revToMatch : Option String)
    (force : Bool) : Except SPError FileRevResponse :=
  match cfgOrError cfg? with
  | .error e => .error e
  | .ok cfg =>
    let res := net (uploadReqOf cfg extraPath target data revToMatch force)
    if res.status = 412 then
      .error (.uploadRevToMatchMismatch
        "Remote file changed since last download (ETag mismatch)")
    else if !respOk res then
      .error (.genericError ("CloudSync PUT failed: " ++ toString res.status))
    else
      match res.etag with
      | some e => if e = "" then .error .noRev else .ok { rev := e }
      | none => .error .noRev

/-- `removeFile`: DELETE the target; 404 becomes not-found, other
non-success a generic error, success yields nothing. -/
def removeFile (cfg? : Option CloudSyncPrivateCfg) (extraPath : Option String)
    (net : Net) (target : String) : Except SPError Unit :=
  match cfgOrError cfg? with
  | .error e => .error e
  | .ok cfg =>
    let res := net { url := buildUrlOf cfg extraPath target, method := "DELETE",
                     headers := baseHeadersOf cfg, body := none }
    if res.status = 404 then
      .error (.remoteFileNotFound ("File not found: " ++ target))
    else if !respOk res then
      .error (.genericError ("CloudSync DELETE failed: " ++ toString res.status))
    else .ok ()

/-! ### Client/gateway composition (transport model) -/

/-- Transport adapter: how the gateway observes a client request, assuming
the configured base URL is the worker origin (no path component), so the
request pathname is the URL with the trailing-slash-stripped base removed. -/
def gwReqOfClientReq (base : String) (r : ClientReq) : Request :=
  { method := r.method,
    path := ⟨r.url.data.drop (stripTrailingSlashes base).data.length⟩,
    authorization := headerGet r.headers "Authorization",
    ifMatch := headerGet r.headers "If-Match",
    body := match r.body with
      | some b => b
      | none => "" }

/-- The network function obtained by routing every client request to the
gateway over a fixed store snapshot. -/
def gatewayNet (env : GwEnv) (store : Store) (base : String) : Net :=
  fun r => (gwFetch env store (gwReqOfClientReq base r)).1

/-- `uploadFile` wired end-to-end to the gateway. -/
def uploadFileViaGateway (env : GwEnv) (store : Store)
    (cfg : CloudSyncPrivateCfg) (extraPath : Option String)
    (target data : String) (revToMatch : Option String) (force : Bool) :
    Except SPError FileRevResponse :=
  uploadFile (some cfg) extraPath (gatewayNet env store cfg.baseUrl)
    target data revToMatch force

/-- Does an upload result carry the distinct conflict (revision-mismatch)
outcome? -/
def isConflictError (r : Except SPError FileRevResponse) : Bool :=
  match r with
  | .error (.uploadRevToMatchMismatch _) => true
  | _ => false

/-! ### Codec lemmas: `decodeURIComponent` inverts `encodeURIComponent` -/

theorem char_toNat_lt (c : Char) : c.toNat < 1114112 := by
  rcases c.valid with h | h
  · exact Nat.lt_trans h (by norm_num)
  · exact h.2

theorem hexVal_hexDigitChar (n : Nat) (h : n < 16) :
    hexVal (hexDigitChar n) = some n := by
  interval_cases n <;> decide

theorem utf8Bytes_lt_256 (n : Nat) (hn : n < 1114112) :
    ∀ b ∈ utf8Bytes n, b < 256 := by
  intro b hb
  unfold utf8Bytes at hb
  split_ifs at hb <;> simp only [List.mem_cons, List.mem_singleton,
    List.not_mem_nil, or_false] at hb <;> omega


theorem percentBytesAux_cons_plain (c : Char) (hc : ¬ (c = '%')) (rest : List Char) :
    percentBytesAux (c :: rest) =
      match percentBytesAux rest with
      | some t => some (utf8Bytes c.toNat ++ t)
      | none => none := by
  conv_lhs => rw [percentBytesAux.eq_def]
  simp only [hc, if_false, ite_false]

theorem percentBytesAux_pct (h1 h2 : Char) (a b : Nat)
    (ha : hexVal h1 = some a) (hb : hexVal h2 = some b) (rest : List Char) :
    percentBytesAux ('%' :: h1 :: h2 :: rest) =
      match percentBytesAux rest with
      | some t => some ((16 * a + b) :: t)
      | none => none := by
  conv_lhs => rw [percentBytesAux.eq_def]
  simp only [ha, hb, if_pos rfl, if_true, ite_true]

theorem percentBytesAux_percentEnc (b : Nat) (hb : b < 256) (rest : List Char) :
    percentBytesAux (percentEncByteChars b ++ rest) =
      match percentBytesAux rest with
      | some t => some (b :: t)
      | none => none := by
  have h1 : hexVal (hexDigitChar (b / 16)) = some (b / 16) :=
    hexVal_hexDigitChar _ (by omega)
  have h2 : hexVal (hexDigitChar (b % 16)) = some (b % 16) :=
    hexVal_hexDigitChar _ (by omega)
  have hv : 16 * (b / 16) + b % 16 = b := by omega
  simp only [percentEncByteChars, List.cons_append, List.nil_append]
  rw [percentBytesAux_pct _ _ _ _ h1 h2 rest, hv]

theorem percentBytesAux_encFlat (bs : List Nat) (hbs : ∀ b ∈ bs, b < 256)
    (rest : List Char) :
    percentBytesAux (bs.flatMap percentEncByteChars ++ rest) =
      match percentBytesAux rest with
      | some t => some (bs ++ t)
      | none => none := by
  induction bs with
  | nil =>
    simp only [List.flatMap_nil, List.nil_append]
    cases hpb : percentBytesAux rest <;> rfl
  | cons b bs ih =>
    simp only [List.flatMap_cons, List.append_assoc]
    rw [percentBytesAux_percentEnc b (hbs b (by simp)) _,
      ih (fun x hx => hbs x (by simp [hx]))]
    cases hpb : percentBytesAux rest <;> rfl

theorem isUnreservedByte_lt_128 (b : Nat) (h : isUnreservedByte b = true) :
    b < 128 := by
  unfold isUnreservedByte at h
  simp only [Bool.or_eq_true, Bool.and_eq_true, decide_eq_true_eq,
    beq_iff_eq] at h
  omega

theorem isUnreservedByte_ne_percent (b : Nat) (h : isUnreservedByte b = true) :
    b ≠ 37 := by
  unfold isUnreservedByte at h
  simp only [Bool.or_eq_true, Bool.and_eq_true, decide_eq_true_eq,
    beq_iff_eq] at h
  omega

theorem percentBytesAux_encChar (c : Char) (rest : List Char) :
    percentBytesAux (encChar c ++ rest) =
      match percentBytesAux rest with
      | some t => some (utf8Bytes c.toNat ++ t)
      | none => none := by
  unfold encChar
  by_cases hu : isUnreservedByte c.toNat = true
  · have hne : ¬ (c = '%') := by
      intro hcp
      exact isUnreservedByte_ne_percent c.toNat hu (by rw [hcp]; rfl)
    rw [if_pos hu]
    simp only [List.cons_append, List.nil_append]
    rw [percentBytesAux_cons_plain c hne rest]
  · rw [if_neg hu]
    exact percentBytesAux_encFlat _ (utf8Bytes_lt_256 _ (char_toNat_lt c)) rest

theorem percentBytesAux_encode (l : List Char) :
    percentBytesAux (l.flatMap encChar) =
      some (l.flatMap (fun c => utf8Bytes c.toNat)) := by
  induction l with
  | nil => rfl
  | cons c l ih =>
    simp only [List.flatMap_cons]
    rw [percentBytesAux_encChar c _, ih]

set_option maxRecDepth 4096 in
theorem utf8DecodeOne_length (b : Nat) (rest : List Nat) (nr : Nat × List Nat)
    (h : utf8DecodeOne b rest = some nr) : nr.2.length ≤ rest.length := by
  unfold utf8DecodeOne at h
  by_cases h1 : b < 128
  · rw [if_pos h1] at h
    cases h
    exact Nat.le_refl _
  rw [if_neg h1] at h
  by_cases h2 : b < 192
  · rw [if_pos h2] at h
    cases h
  rw [if_neg h2] at h
  by_cases h3 : b < 224
  · rw [if_pos h3] at h
    cases rest with
    | nil => cases h
    | cons b1 rest1 =>
      dsimp only at h
      by_cases hc : isContByte b1 = true
      · rw [if_pos hc] at h
        cases h
        simp only [List.length_cons]
        omega
      · rw [if_neg hc] at h
        cases h
  rw [if_neg h3] at h
  by_cases h4 : b < 240
  · rw [if_pos h4] at h
    rcases rest with _ | ⟨b1, _ | ⟨b2, rest2⟩⟩
    · cases h
    · cases h
    · dsimp only at h
      by_cases hc : (isContByte b1 && isContByte b2) = true
      · rw [if_pos hc] at h
        cases h
        simp only [List.length_cons]
        omega
      · rw [if_neg hc] at h
        cases h
  rw [if_neg h4] at h
  by_cases h5 : b < 248
  · rw [if_pos h5] at h
    rcases rest with _ | ⟨b1, _ | ⟨b2, _ | ⟨b3, rest3⟩⟩⟩
    · cases h
    · cases h
    · cases h
    · dsimp only at h
      by_cases hc : (isContByte b1 && isContByte b2 && isContByte b3) = true
      · rw [if_pos hc] at h
        cases h
        simp only [List.length_cons]
        omega
      · rw [if_neg hc] at h
        cases h
  rw [if_neg h5] at h
  cases h

theorem utf8DecodeAllF_irrel (fuel : Nat) : ∀ (fuel2 : Nat) (l : List Nat),
    l.length ≤ fuel → l.length ≤ fuel2 →
    utf8DecodeAllF fuel l = utf8DecodeAllF fuel2 l := by
  induction fuel with
  | zero =>
    intro fuel2 l h1 h2
    cases l with
    | nil => cases fuel2 <;> rfl
    | cons b rest => simp at h1
  | succ f ih =>
    intro fuel2 l h1 h2
    cases l with
    | nil => cases fuel2 <;> rfl
    | cons b rest =>
      cases fuel2 with
      | zero => simp at h2
      | succ f2 =>
        simp only [utf8DecodeAllF]
        cases hd : utf8DecodeOne b rest with
        | none => rfl
        | some nr =>
          have hlen := utf8DecodeOne_length b rest nr hd
          simp only [List.length_cons] at h1 h2
          dsimp only
          rw [ih f2 nr.2 (by omega) (by omega)]

theorem utf8DecodeAll_nil : utf8DecodeAll [] = some [] := rfl

theorem utf8DecodeAll_cons_some (b : Nat) (rest : List Nat) (nr : Nat × List Nat)
    (h : utf8DecodeOne b rest = some nr) :
    utf8DecodeAll (b :: rest) =
      match utf8DecodeAll nr.2 with
      | some t => some (nr.1 :: t)
      | none => none := by
  unfold utf8DecodeAll
  simp only [List.length_cons, utf8DecodeAllF, h]
  rw [utf8DecodeAllF_irrel rest.length nr.2.length nr.2
    (utf8DecodeOne_length b rest nr h) (Nat.le_refl _)]

theorem utf8DecodeOne_ascii (b : Nat) (h : b < 128) (rest : List Nat) :
    utf8DecodeOne b rest = some (b, rest) := by
  unfold utf8DecodeOne
  rw [if_pos h]

theorem utf8DecodeOne_two (b b1 : Nat) (hlo : 192 ≤ b) (hhi : b < 224)
    (hc : isContByte b1 = true) (rest : List Nat) :
    utf8DecodeOne b (b1 :: rest) = some ((b - 192) * 64 + (b1 - 128), rest) := by
  unfold utf8DecodeOne
  rw [if_neg (by omega), if_neg (by omega), if_pos hhi]
  dsimp only
  rw [if_pos hc]

theorem utf8DecodeOne_three (b b1 b2 : Nat) (hlo : 224 ≤ b) (hhi : b < 240)
    (hc1 : isContByte b1 = true) (hc2 : isContByte b2 = true) (rest : List Nat) :
    utf8DecodeOne b (b1 :: b2 :: rest) =
      some ((b - 224) * 4096 + (b1 - 128) * 64 + (b2 - 128), rest) := by
  unfold utf8DecodeOne
  rw [if_neg (by omega), if_neg (by omega), if_neg (by omega), if_pos hhi]
  dsimp only
  rw [if_pos (by rw [hc1, hc2]; rfl)]

theorem utf8DecodeOne_four (b b1 b2 b3 : Nat) (hlo : 240 ≤ b) (hhi : b < 248)
    (hc1 : isContByte b1 = true) (hc2 : isContByte b2 = true)
    (hc3 : isContByte b3 = true) (rest : List Nat) :
    utf8DecodeOne b (b1 :: b2 :: b3 :: rest) =
      some ((b - 240) * 262144 + (b1 - 128) * 4096 +
            (b2 - 128) * 64 + (b3 - 128), rest) := by
  unfold utf8DecodeOne
  rw [if_neg (by omega), if_neg (by omega), if_neg (by omega),
    if_neg (by omega), if_pos hhi]
  dsimp only
  rw [if_pos (by rw [hc1, hc2, hc3]; rfl)]

theorem utf8DecodeAll_utf8Bytes (n : Nat) (hn : n < 1114112) (rest : List Nat) :
    utf8DecodeAll (utf8Bytes n ++ rest) =
      match utf8DecodeAll rest with
      | some t => some (n :: t)
      | none => none := by
  unfold utf8Bytes
  by_cases h1 : n < 128
  · rw [if_pos h1]
    simp only [List.cons_append, List.nil_append]
    rw [utf8DecodeAll_cons_some n rest (n, rest) (utf8DecodeOne_ascii n h1 rest)]
  · rw [if_neg h1]
    by_cases h2 : n < 2048
    · rw [if_pos h2]
      simp only [List.cons_append, List.nil_append]
      have hc : isContByte (128 + n % 64) = true := by
        simp only [isContByte, Bool.and_eq_true, decide_eq_true_eq]
        omega
      have hstep := utf8DecodeOne_two (192 + n / 64) (128 + n % 64)
        (by omega) (by omega) hc rest
      have hv : (192 + n / 64 - 192) * 64 + (128 + n % 64 - 128) = n := by omega
      rw [hv] at hstep
      rw [utf8DecodeAll_cons_some _ _ (n, rest) hstep]
    · rw [if_neg h2]
      by_cases h3 : n < 65536
      · rw [if_pos h3]
        simp only [List.cons_append, List.nil_append]
        have hc1 : isContByte (128 + n / 64 % 64) = true := by
          simp only [isContByte, Bool.and_eq_true, decide_eq_true_eq]
          omega
        have hc2 : isContByte (128 + n % 64) = true := by
          simp only [isContByte, Bool.and_eq_true, decide_eq_true_eq]
          omega
        have hstep := utf8DecodeOne_three (224 + n / 4096) (128 + n / 64 % 64)
          (128 + n % 64) (by omega) (by omega) hc1 hc2 rest
        have hv : (224 + n / 4096 - 224) * 4096 + (128 + n / 64 % 64 - 128) * 64 +
            (128 + n % 64 - 128) = n := by omega
        rw [hv] at hstep
        rw [utf8DecodeAll_cons_some _ _ (n, rest) hstep]
      · rw [if_neg h3]
        simp only [List.cons_append, List.nil_append]
        have hc1 : isContByte (128 + n / 4096 % 64) = true := by
          simp only [isContByte, Bool.and_eq_true, decide_eq_true_eq]
          omega
        have hc2 : isContByte (128 + n / 64 % 64) = true := by
          simp only [isContByte, Bool.and_eq_true, decide_eq_true_eq]
          omega
        have hc3 : isContByte (128 + n % 64) = true := by
          simp only [isContByte, Bool.and_eq_true, decide_eq_true_eq]
          omega
        have hstep := utf8DecodeOne_four (240 + n / 262144) (128 + n / 4096 % 64)
          (128 + n / 64 % 64) (128 + n % 64) (by omega) (by omega) hc1 hc2 hc3 rest
        have hv : (240 + n / 262144 - 240) * 262144 + (128 + n / 4096 % 64 - 128) * 4096 +
            (128 + n / 64 % 64 - 128) * 64 + (128 + n % 64 - 128) = n := by omega
        rw [hv] at hstep
        rw [utf8DecodeAll_cons_some _ _ (n, rest) hstep]

theorem utf8DecodeAll_encode (l : List Char) :
    utf8DecodeAll (l.flatMap (fun c => utf8Bytes c.toNat)) =
      some (l.map Char.toNat) := by
  induction l with
  | nil => rfl
  | cons c l ih =>
    simp only [List.flatMap_cons]
    rw [utf8DecodeAll_utf8Bytes c.toNat (char_toNat_lt c) _, ih]
    rfl

theorem decode_encode (s : String) :
    decodeURIComponent (encodeURIComponent s) = some s := by
  have h1 : (encodeURIComponent s).data = s.data.flatMap encChar := rfl
  simp only [decodeURIComponent, h1, percentBytesAux_encode,
    utf8DecodeAll_encode, List.map_map]
  rw [show s.data.map (Char.ofNat ∘ Char.toNat) = s.data.map id from
    List.map_congr_left (fun c _ => Char.ofNat_toNat c), List.map_id]

/-! ### Gateway helper lemmas -/

theorem hexDigitChar_ne_slash (n : Nat) (h : n < 16) : ¬ (hexDigitChar n = '/') := by
  interval_cases n <;> decide

theorem percentEncByteChars_no_slash (b : Nat) (hb : b < 256) :
    ¬ ('/' ∈ percentEncByteChars b) := by
  intro hm
  simp only [percentEncByteChars, List.mem_cons, List.not_mem_nil, or_false] at hm
  rcases hm with hm | hm | hm
  · cases hm
  · exact hexDigitChar_ne_slash (b / 16) (by omega) hm.symm
  · exact hexDigitChar_ne_slash (b % 16) (by omega) hm.symm

theorem encChar_no_slash (c : Char) : ¬ ('/' ∈ encChar c) := by
  intro hm
  unfold encChar at hm
  by_cases hu : isUnreservedByte c.toNat = true
  · rw [if_pos hu] at hm
    simp only [List.mem_singleton] at hm
    rw [← hm] at hu
    exact absurd hu (by decide)
  · rw [if_neg hu] at hm
    rcases List.mem_flatMap.mp hm with ⟨b, hb, hbm⟩
    exact percentEncByteChars_no_slash b
      (utf8Bytes_lt_256 c.toNat (char_toNat_lt c) b hb) hbm

theorem encodeURIComponent_no_slash (s : String) :
    ¬ ('/' ∈ (encodeURIComponent s).data) := by
  intro hm
  have hd : (encodeURIComponent s).data = s.data.flatMap encChar := rfl
  rw [hd] at hm
  rcases List.mem_flatMap.mp hm with ⟨c, _, hcm⟩
  exact encChar_no_slash c hcm

theorem client_path_not_ical (k : String) :
    isIcalRoutePath ("/" ++ encodeURIComponent k) = false := by
  have hns := encodeURIComponent_no_slash k
  have key : ∀ lit : String, '/' ∈ lit.data.drop 1 →
      ("/" ++ encodeURIComponent k == lit) = false := by
    intro lit hlit
    apply beq_eq_false_iff_ne.mpr
    intro h
    apply hns
    have hd := congrArg String.data h
    rw [String.data_append] at hd
    have hd2 : '/' :: (encodeURIComponent k).data = lit.data := hd
    rw [← hd2] at hlit
    simpa using hlit
  unfold isIcalRoutePath
  rw [key "/ical/outlook.ics" (by decide), key "/ical/cursus.ics" (by decide),
    key "/ical/personal.ics" (by decide)]
  rfl

theorem handleIcal_status_mem (env : GwEnv) (req : Request) :
    (handleIcalProxyRequest env req).status ∈ ([405, 500, 502, 200] : List Nat) := by
  unfold handleIcalProxyRequest
  split
  · simp [mkResp]
  · split
    · simp [mkResp]
    · split
      · simp [mkResp]
      · split
        · simp [mkResp]
        · split
          · simp [mkResp]
          · simp

theorem gwFetch_authed (env : GwEnv) (store : Store) (req : Request) (k : String)
    (hm : ¬ (req.method = "OPTIONS")) (hical : isIcalRoutePath req.path = false)
    (hauth : req.authorization = some ("Bearer " ++ env.authToken))
    (hkey : decodeURIComponent (sliceFrom1 req.path) = some k) (hk : ¬ (k = "")) :
    gwFetch env store req = gwSwitch env store req k := by
  unfold gwFetch
  rw [if_neg hm, if_neg (by simp [hical]),
    if_neg (by rw [hauth]; exact fun hne => hne rfl), hkey]
  dsimp only
  rw [if_neg hk]

theorem gwFetch_unauthorized (env : GwEnv) (store : Store) (req : Request)
    (hm : ¬ (req.method = "OPTIONS")) (hical : isIcalRoutePath req.path = false)
    (hauth : ¬ (req.authorization = some ("Bearer " ++ env.authToken))) :
    gwFetch env store req = (mkResp 401 (some "Unauthorized") none none none, store) := by
  unfold gwFetch
  rw [if_neg hm, if_neg (by simp [hical]), if_pos hauth]

theorem gwFetch_snd_unauth (env : GwEnv) (store : Store) (req : Request)
    (hauth : ¬ (req.authorization = some ("Bearer " ++ env.authToken))) :
    (gwFetch env store req).2 = store := by
  unfold gwFetch
  split
  · rfl
  split
  · rfl
  rfl

theorem gwSwitch_412_ifMatch (env : GwEnv) (store : Store) (req : Request)
    (key : String) (h : (gwSwitch env store req key).1.status = 412) :
    ∃ p, req.ifMatch = some p ∧ ¬ (p = "") := by
  unfold gwSwitch at h
  split at h
  · split at h <;> simp [mkResp] at h
  · split at h
    · split at h <;> simp [mkResp] at h
    · split at h
      · split at h
        · rename_i p heq
          split at h
          · rename_i hp
            split at h
            · rename_i existing hex
              split at h
              · exact ⟨p, heq, hp⟩
              · simp [mkResp] at h
            · simp [mkResp] at h
          · simp [mkResp] at h
        · simp [mkResp] at h
      · split at h
        · simp [mkResp] at h
        · simp [mkResp] at h

theorem gwFetch_412_ifMatch (env : GwEnv) (store : Store) (req : Request)
    (h : (gwFetch env store req).1.status = 412) :
    ∃ p, req.ifMatch = some p ∧ ¬ (p = "") := by
  unfold gwFetch at h
  split at h
  · simp [mkResp] at h
  split at h
  · exfalso
    have hm := handleIcal_status_mem env req
    dsimp only at h
    rw [h] at hm
    simp at hm
  split at h
  · simp [mkResp] at h
  split at h
  · simp [mkResp] at h
  split at h
  · simp [mkResp] at h
  · exact gwSwitch_412_ifMatch env store req _ h

/-! ### Client helper lemmas -/

theorem cfgOrError_valid (c : CloudSyncPrivateCfg) (h1 : ¬ (c.baseUrl = ""))
    (h2 : ¬ (c.authToken = "")) : cfgOrError (some c) = .ok c := by
  unfold cfgOrError
  dsimp only
  rw [if_neg h1, if_neg h2]

theorem uploadReq_force_no_ifmatch (cfg : CloudSyncPrivateCfg)
    (extra : Option String) (target data : String) (rev : Option String) :
    headerGet (uploadReqOf cfg extra target data rev true).headers "If-Match" = none := by
  unfold uploadReqOf
  cases rev <;> dsimp only <;> simp [headerSet, headerGet, baseHeadersOf]

theorem uploadReq_auth (cfg : CloudSyncPrivateCfg) (extra : Option String)
    (target data : String) (rev : Option String) (force : Bool) :
    headerGet (uploadReqOf cfg extra target data rev force).headers "Authorization" =
      some ("Bearer " ++ cfg.authToken) := by
  unfold uploadReqOf
  cases rev with
  | none => dsimp only; simp [headerSet, headerGet, baseHeadersOf]
  | some r =>
    dsimp only
    split_ifs with h
    · simp [headerSet, headerGet, baseHeadersOf]
    · simp [headerSet, headerGet, baseHeadersOf]

theorem revFromHeaders_mk (st : Nat) (bd e lm ct : Option String) :
    revFromHeaders (mkResp st bd e lm ct) = orTruthy e (orTruthy lm "") := rfl

theorem getFileRev_200 (c : CloudSyncPrivateCfg) (hc1 : ¬ (c.baseUrl = ""))
    (hc2 : ¬ (c.authToken = "")) (extra lrev : Option String) (target : String)
    (r : Response) (hst : ¬ (r.status = 404)) (hok : respOk r = true) :
    getFileRev (some c) extra (fun _ => r) target lrev =
      (if revFromHeaders r = "" then .error .noRev
       else .ok { rev := revFromHeaders r }) := by
  unfold getFileRev
  rw [cfgOrError_valid c hc1 hc2]
  dsimp only
  rw [if_neg hst, if_neg (by rw [hok]; decide)]

theorem downloadFile_200 (c : CloudSyncPrivateCfg) (hc1 : ¬ (c.baseUrl = ""))
    (hc2 : ¬ (c.authToken = "")) (extra : Option String) (target : String)
    (r : Response) (hst : ¬ (r.status = 404)) (hok : respOk r = true) :
    downloadFile (some c) extra (fun _ => r) target =
      (if revFromHeaders r = "" then .error .noRev
       else .ok { rev := revFromHeaders r,
                  dataStr := match r.rbody with
                    | some s => s
                    | none => "" }) := by
  unfold downloadFile
  rw [cfgOrError_valid c hc1 hc2]
  dsimp only
  rw [if_neg hst, if_neg (by rw [hok]; decide)]

theorem uploadFile_parse (c : CloudSyncPrivateCfg) (hc1 : ¬ (c.baseUrl = ""))
    (hc2 : ¬ (c.authToken = "")) (extra revm : Option String) (target data : String)
    (force : Bool) (r : Response) (hst : ¬ (r.status = 412)) (hok : respOk r = true) :
    uploadFile (some c) extra (fun _ => r) target data revm force =
      (match r.etag with
       | some e2 => if e2 = "" then .error .noRev else .ok { rev := e2 }
       | none => .error .noRev) := by
  unfold uploadFile
  rw [cfgOrError_valid c hc1 hc2]
  dsimp only
  rw [if_neg hst, if_neg (by rw [hok]; decide)]

theorem removeFile_success (c : CloudSyncPrivateCfg) (hc1 : ¬ (c.baseUrl = ""))
    (hc2 : ¬ (c.authToken = "")) (extra : Option String) (target : String)
    (net : Net) (hnet : ∀ r2, (net r2).status = 204) :
    removeFile (some c) extra net target = .ok () := by
  unfold removeFile
  rw [cfgOrError_valid c hc1 hc2]
  dsimp only
  rw [if_neg (by rw [hnet]; decide)]
  rw [if_neg (by unfold respOk; rw [hnet]; decide)]

/-! ### Concrete fixtures used by the evaluation witnesses -/

/-- A concrete worker environment: token `"tok"`, ETags prefixed `"W"`,
no calendar routes configured. -/
def envT : GwEnv :=
  { authToken := "tok", etagOf := fun s => "W" ++ s, now := "NOW",
    icalOutlookUrl := none, icalCursusUrl := none, icalPersonalUrl := none,
    icalFetch := fun _ => none }

/-- A concrete store holding one object under key `"a"`. -/
def storeT : Store :=
  fun k => if k = "a" then some { content := "old", etag := "r1", uploaded := "T0" }
           else none

/-- A concrete client configuration matching `envT`'s token. -/
def cfgT : CloudSyncPrivateCfg :=
  { baseUrl := "https://w.dev", authToken := "tok", syncFolderPath := none }

/-! ### Claim theorems -/

/-- C6: `_buildFilePath` joins folder, optional sub-scope and target with
single separators, collapsing runs of separators: folder
`"super-productivity"`, no sub-scope, target `"sync-data.json"` gives
`"super-productivity/sync-data.json"`; folder `"a/"` and target `"/b"` give
`"a/b"`; with a sub-scope the three parts are joined in order. -/
theorem C6_key_composition (u a : String) :
    buildFilePath none
      { baseUrl := u, authToken := a, syncFolderPath := some "super-productivity" }
      "sync-data.json" = "super-productivity/sync-data.json" ∧
    buildFilePath none
      { baseUrl := u, authToken := a, syncFolderPath := some "a/" }
      "/b" = "a/b" ∧
    buildFilePath (some "sub")
      { baseUrl := u, authToken := a, syncFolderPath := some "folder" }
      "t.json" = "folder/sub/t.json" :=
  ⟨rfl, rfl, rfl⟩

/-- C7: for a non-empty composed key, the client's URL construction (strip
trailing separators from the base URL, append `/` and the percent-encoded
key) composed with the gateway's key recovery (percent-decode the pathname
after dropping the leading separator) returns exactly the composed key, so
client and gateway agree on the rendezvous key. -/
theorem C7_url_key_roundtrip (cfg : CloudSyncPrivateCfg) (extraPath : Option String)
    (target : String) (hk : ¬ (buildFilePath extraPath cfg target = "")) :
    decodeURIComponent (sliceFrom1
      (gwReqOfClientReq cfg.baseUrl
        { url := buildUrlOf cfg extraPath target, method := "GET",
          headers := baseHeadersOf cfg, body := none }).path) =
      some (buildFilePath extraPath cfg target) := by
  unfold gwReqOfClientReq buildUrlOf
  dsimp only
  have hdata : (stripTrailingSlashes cfg.baseUrl ++ "/" ++
      encodeURIComponent (buildFilePath extraPath cfg target)).data =
      (stripTrailingSlashes cfg.baseUrl).data ++
        ('/' :: (encodeURIComponent (buildFilePath extraPath cfg target)).data) := by
    rw [String.data_append, String.data_append]
    rw [List.append_assoc]
    rfl
  rw [hdata, List.drop_left]
  unfold sliceFrom1
  dsimp only
  exact decode_encode (buildFilePath extraPath cfg target)

theorem C7_url_key_roundtrip_witness :
    ¬ (buildFilePath none cfgT "sync-data.json" = "") ∧
    decodeURIComponent (sliceFrom1
      (gwReqOfClientReq cfgT.baseUrl
        { url := buildUrlOf cfgT none "sync-data.json", method := "GET",
          headers := baseHeadersOf cfgT, body := none }).path) =
      some (buildFilePath none cfgT "sync-data.json") :=
  ⟨by decide, C7_url_key_roundtrip cfgT none "sync-data.json" (by decide)⟩

/-- C3 counterexample: the worker serves the public calendar proxy routes
before the auth check, so an unauthenticated non-OPTIONS request to
`/ical/outlook.ics` (here a PUT) is answered 405, not 401. -/
theorem C3_counterexample :
    (gwFetch envT (fun _ => none)
      { method := "PUT", path := "/ical/outlook.ics", authorization := none,
        ifMatch := none, body := "x" }).1.status = 405 ∧
    ¬ ((gwFetch envT (fun _ => none)
      { method := "PUT", path := "/ical/outlook.ics", authorization := none,
        ifMatch := none, body := "x" }).1.status = 401) :=
  ⟨rfl, by decide⟩

/-- C3 (amended): for every request that is not an OPTIONS preflight and not
one of the public calendar proxy routes, a missing or wrong bearer token is
answered 401 with no store access (the store is unchanged and the response
does not depend on the store); moreover any request with bad auth — calendar
routes included — never mutates the store. -/
theorem C3_unauthorized_short_circuit (env : GwEnv) (store store2 : Store)
    (req req2 : Request)
    (hm : ¬ (req.method = "OPTIONS")) (hical : isIcalRoutePath req.path = false)
    (hauth : ¬ (req.authorization = some ("Bearer " ++ env.authToken)))
    (hauth2 : ¬ (req2.authorization = some ("Bearer " ++ env.authToken))) :
    (gwFetch env store req).1.status = 401 ∧
    (gwFetch env store req).2 = store ∧
    (gwFetch env store req).1 = (gwFetch env store2 req).1 ∧
    (gwFetch env store req2).2 = store := by
  rw [gwFetch_unauthorized env store req hm hical hauth,
    gwFetch_unauthorized env store2 req hm hical hauth]
  exact ⟨rfl, rfl, rfl, gwFetch_snd_unauth env store req2 hauth2⟩

theorem C3_unauthorized_short_circuit_witness :
    (gwFetch envT storeT
      { method := "PUT", path := "/a", authorization := some "Bearer wrong",
        ifMatch := none, body := "x" }).1.status = 401 ∧
    (gwFetch envT storeT
      { method := "PUT", path := "/a", authorization := some "Bearer wrong",
        ifMatch := none, body := "x" }).2 = storeT ∧
    (gwFetch envT storeT
      { method := "PUT", path := "/a", authorization := some "Bearer wrong",
        ifMatch := none, body := "x" }).1 =
      (gwFetch envT (fun _ => none)
        { method := "PUT", path := "/a", authorization := some "Bearer wrong",
          ifMatch := none, body := "x" }).1 ∧
    (gwFetch envT storeT
      { method := "DELETE", path := "/a", authorization := none,
        ifMatch := none, body := "" }).2 = storeT :=
  C3_unauthorized_short_circuit envT storeT (fun _ => none)
    { method := "PUT", path := "/a", authorization := some "Bearer wrong",
      ifMatch := none, body := "x" }
    { method := "DELETE", path := "/a", authorization := none,
      ifMatch := none, body := "" }
    (by decide) (by decide) (by decide) (by decide)

/-- C9: an authenticated PUT to an absent key carrying any `If-Match`
precondition is not rejected: the conflict check applies only when an object
already exists, so the gateway writes the object and answers 200 with the
new revision. -/
theorem C9_put_absent_ignores_precondition (env : GwEnv) (store : Store)
    (req : Request) (k p : String)
    (hrm : req.method = "PUT") (hical : isIcalRoutePath req.path = false)
    (hrauth : req.authorization = some ("Bearer " ++ env.authToken))
    (hkey : decodeURIComponent (sliceFrom1 req.path) = some k) (hk : ¬ (k = ""))
    (habs : store k = none) (hifm : req.ifMatch = some p) :
    ¬ ((gwFetch env store req).1.status = 412) ∧
    (gwFetch env store req).1.status = 200 ∧
    (gwFetch env store req).1.etag = some (env.etagOf req.body) ∧
    (gwFetch env store req).2 k =
      some { content := req.body, etag := env.etagOf req.body,
             uploaded := env.now } := by
  have hsw := gwFetch_authed env store req k (by rw [hrm]; decide) hical hrauth hkey hk
  have hput : gwSwitch env store req k =
      (mkResp 200 none (some (env.etagOf req.body)) none none,
       putStore store k
         { content := req.body, etag := env.etagOf req.body, uploaded := env.now }) := by
    unfold gwSwitch
    rw [if_neg (by rw [hrm]; decide), if_neg (by rw [hrm]; decide), if_pos hrm]
    dsimp only
    rw [hifm]
    dsimp only
    by_cases hp : p = ""
    · rw [if_neg (fun hne => hne hp)]
    · rw [if_pos hp, habs]
  rw [hsw, hput]
  refine ⟨by simp [mkResp], rfl, rfl, ?_⟩
  dsimp only [putStore]
  rw [if_pos rfl]

theorem C9_put_absent_ignores_precondition_witness :
    ¬ ((gwFetch envT (fun _ => none)
      { method := "PUT", path := "/k", authorization := some "Bearer tok",
        ifMatch := some "r0", body := "b" }).1.status = 412) ∧
    (gwFetch envT (fun _ => none)
      { method := "PUT", path := "/k", authorization := some "Bearer tok",
        ifMatch := some "r0", body := "b" }).1.status = 200 ∧
    (gwFetch envT (fun _ => none)
      { method := "PUT", path := "/k", authorization := some "Bearer tok",
        ifMatch := some "r0", body := "b" }).1.etag = some (envT.etagOf "b") ∧
    (gwFetch envT (fun _ => none)
      { method := "PUT", path := "/k", authorization := some "Bearer tok",
        ifMatch := some "r0", body := "b" }).2 "k" =
      some { content := "b", etag := envT.etagOf "b", uploaded := envT.now } :=
  C9_put_absent_ignores_precondition envT (fun _ => none)
    { method := "PUT", path := "/k", authorization := some "Bearer tok",
      ifMatch := some "r0", body := "b" } "k" "r0"
    rfl (by decide) rfl rfl (by decide) rfl rfl

/-- C1: for an existing object, an authenticated PUT whose `If-Match`
precondition differs from the current revision is rejected with 412 and no
write (the store is unchanged, so content and revision keep their pre-write
values); and the client's `uploadFile` turns a 412 response into the
distinct revision-mismatch error rather than a generic failure. -/
theorem C1_stale_precondition_rejected (env : GwEnv) (store : Store)
    (req : Request) (k p : String) (obj : StoredObj)
    (hrm : req.method = "PUT") (hical : isIcalRoutePath req.path = false)
    (hrauth : req.authorization = some ("Bearer " ++ env.authToken))
    (hkey : decodeURIComponent (sliceFrom1 req.path) = some k) (hk : ¬ (k = ""))
    (hobj : store k = some obj) (hifm : req.ifMatch = some p) (hp : ¬ (p = ""))
    (hne : ¬ (obj.etag = p))
    (c : CloudSyncPrivateCfg) (hc1 : ¬ (c.baseUrl = "")) (hc2 : ¬ (c.authToken = ""))
    (extra rev : Option String) (net : Net) (target data : String) (force : Bool)
    (hnet : ∀ r, (net r).status = 412) :
    (gwFetch env store req).1.status = 412 ∧
    (gwFetch env store req).2 = store ∧
    uploadFile (some c) extra net target data rev force =
      .error (.uploadRevToMatchMismatch
        "Remote file changed since last download (ETag mismatch)") := by
  have hsw := gwFetch_authed env store req k (by rw [hrm]; decide) hical hrauth hkey hk
  have h412 : gwSwitch env store req k =
      (mkResp 412 (some "Precondition Failed") none none none, store) := by
    unfold gwSwitch
    rw [if_neg (by rw [hrm]; decide), if_neg (by rw [hrm]; decide), if_pos hrm]
    dsimp only
    rw [hifm]
    dsimp only
    rw [if_pos hp, hobj]
    dsimp only
    rw [if_pos hne]
  refine ⟨by rw [hsw, h412]; rfl, by rw [hsw, h412], ?_⟩
  unfold uploadFile
  rw [cfgOrError_valid c hc1 hc2]
  dsimp only
  rw [if_pos (hnet _)]

theorem C1_stale_precondition_rejected_witness :
    (gwFetch envT storeT
      { method := "PUT", path := "/a", authorization := some "Bearer tok",
        ifMatch := some "r0", body := "new" }).1.status = 412 ∧
    (gwFetch envT storeT
      { method := "PUT", path := "/a", authorization := some "Bearer tok",
        ifMatch := some "r0", body := "new" }).2 = storeT ∧
    uploadFile (some cfgT) none (fun _ => mkResp 412 none none none none)
      "t.json" "d" (some "r0") false =
      .error (.uploadRevToMatchMismatch
        "Remote file changed since last download (ETag mismatch)") :=
  C1_stale_precondition_rejected envT storeT
    { method := "PUT", path := "/a", authorization := some "Bearer tok",
      ifMatch := some "r0", body := "new" }
    "a" "r0" { content := "old", etag := "r1", uploaded := "T0" }
    rfl (by decide) rfl rfl (by decide) rfl rfl (by decide) (by decide)
    cfgT (by decide) (by decide) none (some "r0")
    (fun _ => mkResp 412 none none none none) "t.json" "d" false
    (fun _ => rfl)

/-- C4 counterexample: the worker's DELETE is an unconditional `BUCKET.delete`
answering 204 even when the key is absent — not the 404 the claim asserts —
and consequently the client's `removeFile` for an absent key succeeds
end-to-end instead of failing with the not-found error. -/
theorem C4_counterexample :
    (gwFetch envT (fun _ => none)
      { method := "DELETE", path := "/k", authorization := some "Bearer tok",
        ifMatch := none, body := "" }).1.status = 204 ∧
    ¬ ((gwFetch envT (fun _ => none)
      { method := "DELETE", path := "/k", authorization := some "Bearer tok",
        ifMatch := none, body := "" }).1.status = 404) ∧
    removeFile (some cfgT) none
      (gatewayNet envT (fun _ => none) cfgT.baseUrl) "f.json" = .ok () :=
  ⟨rfl, by decide, rfl⟩

/-- C4 (amended): an authenticated DELETE of an absent key succeeds with 204
(the worker's delete is idempotent and never reports 404), the store is
unchanged, repeating the delete answers 204 again with no state change, and
the client's `removeFile` on the 204 response succeeds instead of raising
not-found. -/
theorem C4_delete_absent_succeeds (env : GwEnv) (store : Store)
    (req : Request) (k : String)
    (hrm : req.method = "DELETE") (hical : isIcalRoutePath req.path = false)
    (hrauth : req.authorization = some ("Bearer " ++ env.authToken))
    (hkey : decodeURIComponent (sliceFrom1 req.path) = some k) (hk : ¬ (k = ""))
    (habs : store k = none)
    (c : CloudSyncPrivateCfg) (hc1 : ¬ (c.baseUrl = "")) (hc2 : ¬ (c.authToken = ""))
    (extra : Option String) (net : Net) (target : String)
    (hnet : ∀ r, (net r).status = 204) :
    (gwFetch env store req).1.status = 204 ∧
    ¬ ((gwFetch env store req).1.status = 404) ∧
    (gwFetch env store req).2 = store ∧
    (gwFetch env (gwFetch env store req).2 req).1.status = 204 ∧
    removeFile (some c) extra net target = .ok () := by
  have hsw := gwFetch_authed env store req k (by rw [hrm]; decide) hical hrauth hkey hk
  have hdel : gwSwitch env store req k =
      (mkResp 204 none none none none, deleteStore store k) := by
    unfold gwSwitch
    rw [if_neg (by rw [hrm]; decide), if_neg (by rw [hrm]; decide),
      if_neg (by rw [hrm]; decide), if_pos hrm]
  have hsame : deleteStore store k = store := by
    funext k2
    unfold deleteStore
    by_cases hek : k2 = k
    · rw [if_pos hek, hek, habs]
    · rw [if_neg hek]
  have hsnd : (gwFetch env store req).2 = store := by
    rw [hsw, hdel]
    exact hsame
  refine ⟨by rw [hsw, hdel]; rfl, by rw [hsw, hdel]; simp [mkResp], hsnd, ?_, ?_⟩
  · rw [hsnd, hsw, hdel]; rfl
  · exact removeFile_success c hc1 hc2 extra target net hnet

theorem C4_delete_absent_succeeds_witness :
    (gwFetch envT (fun _ => none)
      { method := "DELETE", path := "/k", authorization := some "Bearer tok",
        ifMatch := none, body := "" }).1.status = 204 ∧
    ¬ ((gwFetch envT (fun _ => none)
      { method := "DELETE", path := "/k", authorization := some "Bearer tok",
        ifMatch := none, body := "" }).1.status = 404) ∧
    (gwFetch envT (fun _ => none)
      { method := "DELETE", path := "/k", authorization := some "Bearer tok",
        ifMatch := none, body := "" }).2 = (fun _ => none) ∧
    (gwFetch envT (gwFetch envT (fun _ => none)
      { method := "DELETE", path := "/k", authorization := some "Bearer tok",
        ifMatch := none, body := "" }).2
      { method := "DELETE", path := "/k", authorization := some "Bearer tok",
        ifMatch := none, body := "" }).1.status = 204 ∧
    removeFile (some cfgT) none (fun _ => mkResp 204 none none none none)
      "f.json" = .ok () :=
  C4_delete_absent_succeeds envT (fun _ => none)
    { method := "DELETE", path := "/k", authorization := some "Bearer tok",
      ifMatch := none, body := "" }
    "k" rfl (by decide) rfl rfl (by decide) rfl
    cfgT (by decide) (by decide) none
    (fun _ => mkResp 204 none none none none) "f.json" (fun _ => rfl)

/-- C5: after a successful authenticated PUT of body `b` to key `k`, the
stored object holds exactly `b` with the returned ETag, and an immediate GET
of the same path answers 200 with body `b` and the same ETag the upload
returned. -/
theorem C5_upload_download_roundtrip (env : GwEnv) (store : Store)
    (req : Request) (k : String)
    (hrm : req.method = "PUT") (hical : isIcalRoutePath req.path = false)
    (hrauth : req.authorization = some ("Bearer " ++ env.authToken))
    (hkey : decodeURIComponent (sliceFrom1 req.path) = some k) (hk : ¬ (k = ""))
    (hsucc : (gwFetch env store req).1.status = 200) :
    (gwFetch env store req).1.etag = some (env.etagOf req.body) ∧
    (gwFetch env store req).2 k =
      some { content := req.body, etag := env.etagOf req.body,
             uploaded := env.now } ∧
    (gwFetch env (gwFetch env store req).2
      { method := "GET", path := req.path, authorization := req.authorization,
        ifMatch := none, body := "" }).1 =
      mkResp 200 (some req.body) (some (env.etagOf req.body)) (some env.now)
        (some "application/json") := by
  have hsw := gwFetch_authed env store req k (by rw [hrm]; decide) hical hrauth hkey hk
  rw [hsw] at hsucc
  have hwrite : gwSwitch env store req k =
      (mkResp 200 none (some (env.etagOf req.body)) none none,
       putStore store k
         { content := req.body, etag := env.etagOf req.body, uploaded := env.now }) := by
    unfold gwSwitch at hsucc ⊢
    rw [if_neg (by rw [hrm]; decide), if_neg (by rw [hrm]; decide),
      if_pos hrm] at hsucc ⊢
    dsimp only at hsucc ⊢
    cases hifm : req.ifMatch with
    | none => rfl
    | some p =>
      rw [hifm] at hsucc
      dsimp only at hsucc ⊢
      by_cases hp : p = ""
      · rw [if_neg (fun hne => hne hp)]
      · rw [if_pos hp] at hsucc
        rw [if_pos hp]
        cases hobj : store k with
        | none => rfl
        | some existing =>
          rw [hobj] at hsucc
          dsimp only at hsucc ⊢
          by_cases hetag : existing.etag = p
          · rw [if_neg (fun hne => hne hetag)]
          · rw [if_pos hetag] at hsucc
            simp [mkResp] at hsucc
  rw [hsw, hwrite]
  refine ⟨rfl, ?_, ?_⟩
  · dsimp only [putStore]
    rw [if_pos rfl]
  · dsimp only
    rw [gwFetch_authed env _
      { method := "GET", path := req.path, authorization := req.authorization,
        ifMatch := none, body := "" } k (by simp) hical hrauth hkey hk]
    unfold gwSwitch
    rw [if_neg (by simp), if_pos rfl]
    dsimp only [putStore]
    rw [if_pos rfl]

theorem C5_upload_download_roundtrip_witness :
    (gwFetch envT (fun _ => none)
      { method := "PUT", path := "/k", authorization := some "Bearer tok",
        ifMatch := none, body := "b" }).1.etag = some (envT.etagOf "b") ∧
    (gwFetch envT (fun _ => none)
      { method := "PUT", path := "/k", authorization := some "Bearer tok",
        ifMatch := none, body := "b" }).2 "k" =
      some { content := "b", etag := envT.etagOf "b", uploaded := envT.now } ∧
    (gwFetch envT (gwFetch envT (fun _ => none)
      { method := "PUT", path := "/k", authorization := some "Bearer tok",
        ifMatch := none, body := "b" }).2
      { method := "GET", path := "/k", authorization := some "Bearer tok",
        ifMatch := none, body := "" }).1 =
      mkResp 200 (some "b") (some (envT.etagOf "b")) (some envT.now)
        (some "application/json") :=
  C5_upload_download_roundtrip envT (fun _ => none)
    { method := "PUT", path := "/k", authorization := some "Bearer tok",
      ifMatch := none, body := "b" }
    "k" rfl (by decide) rfl rfl (by decide) rfl

/-- C2: with `isForceOverwrite = true`, the PUT request `uploadFile` builds
carries no `If-Match` header regardless of the supplied revision, and hence
the end-to-end operation against the gateway never yields the conflict
(revision-mismatch) outcome, for any supplied revision and store state. -/
theorem C2_force_overwrite_no_conflict (env : GwEnv) (store : Store)
    (c : CloudSyncPrivateCfg) (extra rev : Option String) (target data : String) :
    headerGet (uploadReqOf c extra target data rev true).headers "If-Match" = none ∧
    isConflictError (uploadFileViaGateway env store c extra target data rev true) = false := by
  refine ⟨uploadReq_force_no_ifmatch c extra target data rev, ?_⟩
  unfold uploadFileViaGateway uploadFile
  cases hcfg : cfgOrError (some c) with
  | error e =>
    unfold cfgOrError at hcfg
    dsimp only at hcfg
    split_ifs at hcfg <;> (cases hcfg; rfl)
  | ok cfg2 =>
    dsimp only
    have hifm : (gwReqOfClientReq c.baseUrl
        (uploadReqOf cfg2 extra target data rev true)).ifMatch = none := by
      unfold gwReqOfClientReq
      exact uploadReq_force_no_ifmatch cfg2 extra target data rev
    have h412 : ¬ ((gatewayNet env store c.baseUrl
        (uploadReqOf cfg2 extra target data rev true)).status = 412) := by
      intro h
      rcases gwFetch_412_ifMatch env store
        (gwReqOfClientReq c.baseUrl (uploadReqOf cfg2 extra target data rev true)) h
        with ⟨p, hpm, _⟩
      rw [hifm] at hpm
      cases hpm
    rw [if_neg h412]
    split_ifs with hok
    · rfl
    · cases (gatewayNet env store c.baseUrl
        (uploadReqOf cfg2 extra target data rev true)).etag with
      | none => rfl
      | some e2 =>
        dsimp only
        split_ifs <;> rfl

theorem cfgOrError_none_missing :
    cfgOrError none =
      .error (.missingCredentials "CloudSync configuration is missing.") := rfl

theorem cfgOrError_baseUrl_empty (c : CloudSyncPrivateCfg) (h1 : c.baseUrl = "") :
    cfgOrError (some c) = .error (.missingCredentials
      "CloudSync base URL is not configured. Please check your sync settings.") := by
  unfold cfgOrError
  dsimp only
  rw [if_pos h1]

theorem cfgOrError_token_empty (c : CloudSyncPrivateCfg) (h1 : ¬ (c.baseUrl = ""))
    (h2 : c.authToken = "") :
    cfgOrError (some c) = .error (.missingCredentials
      "CloudSync auth token is not configured. Please check your sync settings.") := by
  unfold cfgOrError
  dsimp only
  rw [if_neg h1, if_pos h2]

theorem ops_missing_credentials (cfg? : Option CloudSyncPrivateCfg) (m : String)
    (herr : cfgOrError cfg? = .error (.missingCredentials m))
    (extra lrev rev : Option String) (net : Net) (target data : String)
    (force : Bool) :
    getFileRev cfg? extra net target lrev = .error (.missingCredentials m) ∧
    downloadFile cfg? extra net target = .error (.missingCredentials m) ∧
    uploadFile cfg? extra net target data rev force = .error (.missingCredentials m) ∧
    removeFile cfg? extra net target = .error (.missingCredentials m) := by
  unfold getFileRev downloadFile uploadFile removeFile
  rw [herr]
  exact ⟨rfl, rfl, rfl, rfl⟩

/-- C8: whenever the stored configuration is absent or its base URL or auth
token is empty (exactly when the readiness check is false), every operation
returns the missing-credentials error — for every network function, i.e.
before any network request — and the readiness check, which takes no
network, is true exactly when a configuration with non-empty base URL and
non-empty token is present. -/
theorem C8_config_gate_and_readiness (cfg? : Option CloudSyncPrivateCfg)
    (extra lrev rev : Option String) (net : Net) (target data : String)
    (force : Bool) :
    (isReady cfg? = false →
      ∃ m, getFileRev cfg? extra net target lrev = .error (.missingCredentials m) ∧
        downloadFile cfg? extra net target = .error (.missingCredentials m) ∧
        uploadFile cfg? extra net target data rev force = .error (.missingCredentials m) ∧
        removeFile cfg? extra net target = .error (.missingCredentials m)) ∧
    (isReady cfg? = true ↔
      ∃ c, cfg? = some c ∧ ¬ (c.baseUrl = "") ∧ ¬ (c.authToken = "")) := by
  cases cfg? with
  | none =>
    refine ⟨fun _ => ⟨_, ops_missing_credentials none _ rfl
      extra lrev rev net target data force⟩, ?_⟩
    constructor
    · intro h
      simp [isReady] at h
    · rintro ⟨c, hc, -, -⟩
      cases hc
  | some c =>
    by_cases h1 : c.baseUrl = ""
    · refine ⟨fun _ => ⟨_, ops_missing_credentials (some c) _
        (cfgOrError_baseUrl_empty c h1) extra lrev rev net target data force⟩, ?_⟩
      constructor
      · intro h
        simp [isReady, h1] at h
      · rintro ⟨c2, hc2, hb, -⟩
        injection hc2 with hc2
        subst hc2
        exact absurd h1 hb
    · by_cases h2 : c.authToken = ""
      · refine ⟨fun _ => ⟨_, ops_missing_credentials (some c) _
          (cfgOrError_token_empty c h1 h2) extra lrev rev net target data force⟩, ?_⟩
        constructor
        · intro h
          simp [isReady, h2] at h
        · rintro ⟨c2, hc2, -, ht⟩
          injection hc2 with hc2
          subst hc2
          exact absurd h2 ht
      · have hr : isReady (some c) = true := by
          simp [isReady, h1, h2]
        refine ⟨fun hf => ?_, ?_⟩
        · rw [hr] at hf
          cases hf
        · exact ⟨fun _ => ⟨c, rfl, h1, h2⟩, fun _ => hr⟩

theorem C8_config_gate_and_readiness_witness :
    (∃ m, getFileRev none none (fun _ => mkResp 200 none none none none) "t" none =
        .error (.missingCredentials m) ∧
      downloadFile none none (fun _ => mkResp 200 none none none none) "t" =
        .error (.missingCredentials m) ∧
      uploadFile none none (fun _ => mkResp 200 none none none none) "t" "d" none false =
        .error (.missingCredentials m) ∧
      removeFile none none (fun _ => mkResp 200 none none none none) "t" =
        .error (.missingCredentials m)) ∧
    isReady none = false :=
  ⟨(C8_config_gate_and_readiness none none none none
      (fun _ => mkResp 200 none none none none) "t" "d" false).1 rfl, rfl⟩

/-- C10: on a success (200) response, `getFileRev` and `downloadFile` take
the revision from `ETag`, falling back to `Last-Modified` when `ETag` is
absent, and raise the missing-revision error only when both are absent;
`uploadFile` raises missing-revision whenever the success response lacks an
`ETag`, even when `Last-Modified` is present. -/
theorem C10_revision_header_fallback (c : CloudSyncPrivateCfg)
    (hc1 : ¬ (c.baseUrl = "")) (hc2 : ¬ (c.authToken = ""))
    (extra lrev revm : Option String) (target data d : String)
    (e lm : Option String) (force : Bool) :
    (∀ s, e = some s → ¬ (s = "") →
      getFileRev (some c) extra (fun _ => mkResp 200 (some d) e lm none) target lrev =
        .ok { rev := s } ∧
      downloadFile (some c) extra (fun _ => mkResp 200 (some d) e lm none) target =
        .ok { rev := s, dataStr := d }) ∧
    (∀ t, e = none → lm = some t → ¬ (t = "") →
      getFileRev (some c) extra (fun _ => mkResp 200 (some d) e lm none) target lrev =
        .ok { rev := t } ∧
      downloadFile (some c) extra (fun _ => mkResp 200 (some d) e lm none) target =
        .ok { rev := t, dataStr := d } ∧
      uploadFile (some c) extra (fun _ => mkResp 200 (some d) e lm none)
        target data revm force = .error .noRev) ∧
    (e = none → lm = none →
      getFileRev (some c) extra (fun _ => mkResp 200 (some d) e lm none) target lrev =
        .error .noRev ∧
      downloadFile (some c) extra (fun _ => mkResp 200 (some d) e lm none) target =
        .error .noRev ∧
      uploadFile (some c) extra (fun _ => mkResp 200 (some d) e lm none)
        target data revm force = .error .noRev) := by
  refine ⟨?_, ?_, ?_⟩
  · rintro s rfl hs
    have hst : ¬ ((mkResp 200 (some d) (some s) lm none).status = 404) := by
      simp [mkResp]
    have hok : respOk (mkResp 200 (some d) (some s) lm none) = true := by
      simp [respOk, mkResp]
    constructor
    · rw [getFileRev_200 c hc1 hc2 extra lrev target _ hst hok, revFromHeaders_mk]
      unfold orTruthy
      dsimp only
      simp only [if_neg hs]
    · rw [downloadFile_200 c hc1 hc2 extra target _ hst hok, revFromHeaders_mk]
      unfold orTruthy
      dsimp only
      simp only [if_neg hs]
      rfl
  · rintro t rfl rfl ht
    have hst : ¬ ((mkResp 200 (some d) none (some t) none).status = 404) := by
      simp [mkResp]
    have hok : respOk (mkResp 200 (some d) none (some t) none) = true := by
      simp [respOk, mkResp]
    have h412 : ¬ ((mkResp 200 (some d) none (some t) none).status = 412) := by
      simp [mkResp]
    refine ⟨?_, ?_, ?_⟩
    · rw [getFileRev_200 c hc1 hc2 extra lrev target _ hst hok, revFromHeaders_mk]
      unfold orTruthy
      dsimp only
      simp only [if_neg ht]
    · rw [downloadFile_200 c hc1 hc2 extra target _ hst hok, revFromHeaders_mk]
      unfold orTruthy
      dsimp only
      simp only [if_neg ht]
      rfl
    · rw [uploadFile_parse c hc1 hc2 extra revm target data force _ h412 hok]
      rfl
  · rintro rfl rfl
    have hst : ¬ ((mkResp 200 (some d) none none none).status = 404) := by
      simp [mkResp]
    have hok : respOk (mkResp 200 (some d) none none none) = true := by
      simp [respOk, mkResp]
    have h412 : ¬ ((mkResp 200 (some d) none none none).status = 412) := by
      simp [mkResp]
    refine ⟨?_, ?_, ?_⟩
    · rw [getFileRev_200 c hc1 hc2 extra lrev target _ hst hok]
      rfl
    · rw [downloadFile_200 c hc1 hc2 extra target _ hst hok]
      rfl
    · rw [uploadFile_parse c hc1 hc2 extra revm target data force _ h412 hok]
      rfl

theorem C10_revision_header_fallback_witness :
    getFileRev (some cfgT) none
      (fun _ => mkResp 200 (some "D") none (some "L") none) "t" none =
      .ok { rev := "L" } ∧
    uploadFile (some cfgT) none
      (fun _ => mkResp 200 (some "D") none (some "L") none) "t" "d" none false =
      .error .noRev :=
  ⟨((C10_revision_header_fallback cfgT (by decide) (by decide) none none none
      "t" "d" "D" none (some "L") false).2.1 "L" rfl rfl (by decide)).1,
   ((C10_revision_header_fallback cfgT (by decide) (by decide) none none none
      "t" "d" "D" none (some "L") false).2.1 "L" rfl rfl (by decide)).2.2⟩
